import Mathlib

/-!
Verification of the physics core of `gravity-sim` (`src/gravity_simulator.c`).

The C program works on IEEE `double` values.  We model a double as either a
finite real number or one of the non-finite values NaN / +inf / -inf
(type `D` below); finite arithmetic is exact real arithmetic (rounding and
overflow are outside the model), while the non-finite values follow the IEEE
propagation and comparison rules that the source relies on (`isnan`, `isinf`,
every comparison with NaN is false).

The mutable global state of the program (`bodies[]`, `body_count`,
`simulation_paused`, `warning_shown`) is modelled as an explicit `SimState`
record threaded through the functions; the fixed-size array together with
`body_count` becomes a `List Body` (append-only, as in the source).
`printf` logging has no effect on simulation state and is not modelled,
except that the one velocity-clamp advisory per `warning_shown` lifetime is
reported as an explicit event count (claim C8 is about that advisory).
`rand()` draws are passed in explicitly as parameters.
-/

namespace GravitySim

noncomputable section

/-- Model of a C `double`: a finite real number, NaN, or a signed infinity. -/
inductive D where
  | num : ℝ → D
  | nan : D
  | inf : D
  | ninf : D

namespace D

/-- IEEE addition on the double model (finite arithmetic is exact). -/
def dAdd : D → D → D
  | num a, num b => num (a + b)
  | nan, _ => nan
  | _, nan => nan
  | inf, ninf => nan
  | ninf, inf => nan
  | inf, _ => inf
  | _, inf => inf
  | ninf, _ => ninf
  | _, ninf => ninf

/-- IEEE subtraction on the double model. -/
def dSub : D → D → D
  | num a, num b => num (a - b)
  | nan, _ => nan
  | _, nan => nan
  | inf, inf => nan
  | ninf, ninf => nan
  | inf, _ => inf
  | _, ninf => inf
  | ninf, _ => ninf
  | _, inf => ninf

/-- IEEE multiplication on the double model (inf · 0 = NaN). -/
def dMul : D → D → D
  | num a, num b => num (a * b)
  | nan, _ => nan
  | _, nan => nan
  | inf, inf => inf
  | inf, ninf => ninf
  | ninf, inf => ninf
  | ninf, ninf => inf
  | inf, num b => if b = 0 then nan else if 0 < b then inf else ninf
  | num a, inf => if a = 0 then nan else if 0 < a then inf else ninf
  | ninf, num b => if b = 0 then nan else if 0 < b then ninf else inf
  | num a, ninf => if a = 0 then nan else if 0 < a then ninf else inf

/-- IEEE division on the double model (x/0 gives a signed infinity or NaN;
the model has no signed zero). -/
def dDiv : D → D → D
  | num a, num b =>
      if b = 0 then (if a = 0 then nan else if 0 < a then inf else ninf)
      else num (a / b)
  | nan, _ => nan
  | _, nan => nan
  | inf, inf => nan
  | inf, ninf => nan
  | ninf, inf => nan
  | ninf, ninf => nan
  | inf, num b => if 0 ≤ b then inf else ninf
  | ninf, num b => if 0 ≤ b then ninf else inf
  | num _, inf => num 0
  | num _, ninf => num 0

/-- IEEE square root on the double model (negative argument gives NaN). -/
def dSqrt : D → D
  | num a => if a < 0 then nan else num (Real.sqrt a)
  | nan => nan
  | inf => inf
  | ninf => nan

/-- IEEE strict less-than: every comparison involving NaN is false. -/
def dLt : D → D → Bool
  | num a, num b => decide (a < b)
  | num _, inf => true
  | ninf, num _ => true
  | ninf, inf => true
  | _, _ => false

/-- IEEE less-or-equal: every comparison involving NaN is false. -/
def dLe : D → D → Bool
  | num a, num b => decide (a ≤ b)
  | num _, inf => true
  | inf, inf => true
  | ninf, num _ => true
  | ninf, inf => true
  | ninf, ninf => true
  | _, _ => false

/-- C `isnan`. -/
def isNanB : D → Bool
  | nan => true
  | _ => false

/-- C `isinf`. -/
def isInfB : D → Bool
  | inf => true
  | ninf => true
  | _ => false

/-- Cast of a double to `Uint8` (used only for colors): truncation of a
finite in-range value; out-of-range and non-finite casts are undefined
behaviour in C and modelled as 0. -/
def toByte : D → ℕ
  | num a => if 0 ≤ a ∧ a ≤ 255 then (⌊a⌋).toNat else 0
  | _ => 0

/-- The finite value of a double, defaulting to 0 for non-finite values
(used to state mass-sum properties, which only concern finite states). -/
def val : D → ℝ
  | num a => a
  | _ => 0

@[simp] theorem dAdd_num (a b : ℝ) : dAdd (num a) (num b) = num (a + b) := rfl
@[simp] theorem dSub_num (a b : ℝ) : dSub (num a) (num b) = num (a - b) := rfl
@[simp] theorem dMul_num (a b : ℝ) : dMul (num a) (num b) = num (a * b) := rfl
@[simp] theorem dDiv_num (a b : ℝ) :
    dDiv (num a) (num b) =
      if b = 0 then (if a = 0 then nan else if 0 < a then inf else ninf)
      else num (a / b) := rfl
@[simp] theorem dSqrt_num (a : ℝ) :
    dSqrt (num a) = if a < 0 then nan else num (Real.sqrt a) := rfl
@[simp] theorem dLt_num (a b : ℝ) : dLt (num a) (num b) = decide (a < b) := rfl
@[simp] theorem dLe_num (a b : ℝ) : dLe (num a) (num b) = decide (a ≤ b) := rfl
@[simp] theorem isNanB_num (a : ℝ) : isNanB (num a) = false := rfl
@[simp] theorem isNanB_nan : isNanB nan = true := rfl
@[simp] theorem isInfB_num (a : ℝ) : isInfB (num a) = false := rfl
@[simp] theorem isInfB_nan : isInfB nan = false := rfl
@[simp] theorem isInfB_inf : isInfB inf = true := rfl
@[simp] theorem isInfB_ninf : isInfB ninf = true := rfl
@[simp] theorem val_num (a : ℝ) : val (num a) = a := rfl

end D

open D

/-! Configuration constants, from the `#define` block of the source. -/

def INITIAL_WINDOW_WIDTH : ℝ := 1200
def INITIAL_WINDOW_HEIGHT : ℝ := 800
def MAX_BODIES : ℕ := 100
def Gconst : ℝ := 0.5
def SOFTENING : ℝ := 5.0
def TIME_STEP : ℝ := 0.1
def BODY_RADIUS : ℝ := 5
def MAX_VELOCITY : ℝ := 50.0
def MAX_MASS : ℝ := 50000.0
def MAX_RADIUS : ℝ := 100.0

/-- The `Body` struct of the source: position, velocity, acceleration,
mass, collision radius, active flag and an 8-bit RGB color. -/
structure Body where
  x : D
  y : D
  vx : D
  vy : D
  ax : D
  ay : D
  mass : D
  radius : D
  active : Bool
  r : ℕ
  g : ℕ
  b : ℕ

/-- The process-global simulation state: the body array (with `body_count`
given by the list length), the pause flag and the one-time advisory flag. -/
structure SimState where
  bodies : List Body
  paused : Bool
  warnShown : Bool

/-! ### Force Accumulator: `calculate_forces` -/

/-- First loop of `calculate_forces`: zero the accelerations of every
active body. -/
def resetAccels (bs : List Body) : List Body :=
  bs.map (fun bi => if bi.active then { bi with ax := num 0, ay := num 0 } else bi)

/-- One inner-loop iteration of `calculate_forces`: the pair `(i, j)`.
Skips the pair when `bodies[j]` is inactive (the `i` guard is at the row
level, as in the source), otherwise adds the equal-and-opposite
acceleration contributions to both bodies. -/
def forceStep (i j : ℕ) (bs : List Body) : List Body :=
  match bs[i]?, bs[j]? with
  | some bi, some bj =>
      if bj.active then
        let dx := dSub bj.x bi.x
        let dy := dSub bj.y bi.y
        let dist_sq := dAdd (dAdd (dMul dx dx) (dMul dy dy)) (num (SOFTENING * SOFTENING))
        let dist := dSqrt dist_sq
        let force := dDiv (dMul (dMul (num Gconst) bi.mass) bj.mass) dist_sq
        let fx := dDiv (dMul force dx) dist
        let fy := dDiv (dMul force dy) dist
        let bi' := { bi with ax := dAdd bi.ax (dDiv fx bi.mass),
                             ay := dAdd bi.ay (dDiv fy bi.mass) }
        let bj' := { bj with ax := dSub bj.ax (dDiv fx bj.mass),
                             ay := dSub bj.ay (dDiv fy bj.mass) }
        (bs.set i bi').set j bj'
      else bs
  | _, _ => bs

/-- Outer-loop row `i` of `calculate_forces`: skipped when `bodies[i]` is
inactive, otherwise runs the inner loop over `j = i+1 … body_count-1`. -/
def forceRow (bs : List Body) (i : ℕ) : List Body :=
  match bs[i]? with
  | some bi =>
      if bi.active then
        (List.range' (i + 1) (bs.length - (i + 1))).foldl (fun acc j => forceStep i j acc) bs
      else bs
  | none => bs

/-- `calculate_forces`: reset accelerations, then accumulate the pairwise
gravitational contributions in ascending index order. -/
def calculate_forces (bs : List Body) : List Body :=
  let bs1 := resetAccels bs
  (List.range bs1.length).foldl forceRow bs1

/-! ### Integrator: `update_bodies` -/

/-- The toroidal wrap at the end of the integration step, per axis:
`if (x < 0) x = w; if (x > w) x = 0;` (two sequential ifs, as in the
source). -/
def wrapCoord (w : ℝ) (x : D) : D :=
  let x1 := if dLt x (num 0) then num w else x
  if dLt (num w) x1 then num 0 else x1

/-- The per-body work of `update_bodies`: semi-implicit Euler velocity
update, velocity clamp to `MAX_VELOCITY`, position update, toroidal wrap.
Inactive bodies are untouched.  (The advisory bookkeeping lives in
`update_bodies`; it does not affect body values.) -/
def updateBody (w h : ℝ) (bi : Body) : Body :=
  if bi.active then
    let vx := dAdd bi.vx (dMul bi.ax (num TIME_STEP))
    let vy := dAdd bi.vy (dMul bi.ay (num TIME_STEP))
    let speed := dSqrt (dAdd (dMul vx vx) (dMul vy vy))
    let scale := dDiv (num MAX_VELOCITY) speed
    let vx1 := if dLt (num MAX_VELOCITY) speed then dMul vx scale else vx
    let vy1 := if dLt (num MAX_VELOCITY) speed then dMul vy scale else vy
    let x1 := wrapCoord w (dAdd bi.x (dMul vx1 (num TIME_STEP)))
    let y1 := wrapCoord h (dAdd bi.y (dMul vy1 (num TIME_STEP)))
    { bi with x := x1, y := y1, vx := vx1, vy := vy1 }
  else bi

/-- Whether the velocity clamp fires for this body (post-Euler speed
strictly above `MAX_VELOCITY`); used for the advisory bookkeeping. -/
def clampFires (bi : Body) : Bool :=
  let vx := dAdd bi.vx (dMul bi.ax (num TIME_STEP))
  let vy := dAdd bi.vy (dMul bi.ay (num TIME_STEP))
  dLt (num MAX_VELOCITY) (dSqrt (dAdd (dMul vx vx) (dMul vy vy)))

/-- `update_bodies`: updates every active body in index order, threading
the `warning_shown` flag; returns the updated bodies, the updated flag and
the number of velocity-clamp advisories printed during this call (an
advisory is printed only when the clamp fires with the flag still unset,
which then sets the flag). -/
def update_bodies (w h : ℝ) (warn : Bool) : List Body → List Body × Bool × ℕ
  | [] => ([], warn, 0)
  | bi :: rest =>
      if bi.active then
        let clamped := clampFires bi
        let emit := clamped && !warn
        let out := update_bodies w h (warn || clamped) rest
        (updateBody w h bi :: out.1, out.2.1, (if emit then 1 else 0) + out.2.2)
      else
        let out := update_bodies w h warn rest
        (bi :: out.1, out.2.1, out.2.2)

/-! ### Stability Monitor: `check_stability` -/

/-- The non-finite test of `check_stability` on one body: NaN or infinity
in any position or velocity component. -/
def badValues (bi : Body) : Bool :=
  isNanB bi.x || isNanB bi.y || isNanB bi.vx || isNanB bi.vy ||
  isInfB bi.x || isInfB bi.y || isInfB bi.vx || isInfB bi.vy

/-- `check_stability`: scans the active bodies in index order and returns
`false` at the first one with a non-finite position or velocity component,
`true` otherwise.  (The far-out-of-bounds check in the source only prints
a warning and never affects the verdict or the state; it is not modelled.) -/
def check_stability : List Body → Bool
  | [] => true
  | bi :: rest =>
      if bi.active then
        if badValues bi then false else check_stability rest
      else check_stability rest

/-! ### Collision Resolver: `handle_collisions` -/

/-- The merge of lines 198–224 of the source, applied to the designated
`larger` (absorber) and `smaller` (absorbed) body: mass sum clamped to
`MAX_MASS` (setting the pause flag when it clamps), momentum-weighted
velocity using the pre-clamp masses over the clamped total, radius
recomputed from the new mass and clamped to `MAX_RADIUS`, colors blended
by the absorbed-mass fraction.  Returns the updated absorber and whether
the mass clamp fired. -/
def mergeBodies (larger smaller : Body) : Body × Bool :=
  let total0 := dAdd larger.mass smaller.mass
  let hit := dLt (num MAX_MASS) total0
  let total := if hit then num MAX_MASS else total0
  let vx := dDiv (dAdd (dMul larger.mass larger.vx) (dMul smaller.mass smaller.vx)) total
  let vy := dDiv (dAdd (dMul larger.mass larger.vy) (dMul smaller.mass smaller.vy)) total
  let radius0 := dAdd (num BODY_RADIUS) (dDiv total (num 200))
  let radius1 := if dLt (num MAX_RADIUS) radius0 then num MAX_RADIUS else radius0
  let wsm := dDiv smaller.mass total
  ({ larger with
      vx := vx, vy := vy, mass := total, radius := radius1,
      r := toByte (dAdd (dMul (num larger.r) (dSub (num 1) wsm)) (dMul (num smaller.r) wsm)),
      g := toByte (dAdd (dMul (num larger.g) (dSub (num 1) wsm)) (dMul (num smaller.g) wsm)),
      b := toByte (dAdd (dMul (num larger.b) (dSub (num 1) wsm)) (dMul (num smaller.b) wsm)) },
    hit)

/-- One inner-loop iteration of `handle_collisions` on the pair `(i, j)`,
threading the pause flag.  Exactly as in the source, only `bodies[j]` has
its active flag checked here; `bodies[i]` was checked at the start of the
row.  On collision (center distance strictly below the radius sum) the
body of greater-or-equal mass absorbs the other, which is deactivated. -/
def collideStep (i j : ℕ) (st : List Body × Bool) : List Body × Bool :=
  match st.1[i]?, st.1[j]? with
  | some bi, some bj =>
      if bj.active then
        let dx := dSub bj.x bi.x
        let dy := dSub bj.y bi.y
        let dist := dSqrt (dAdd (dMul dx dx) (dMul dy dy))
        if dLt dist (dAdd bi.radius bj.radius) then
          if dLe bj.mass bi.mass then
            let m := mergeBodies bi bj
            ((st.1.set i m.1).set j { bj with active := false }, st.2 || m.2)
          else
            let m := mergeBodies bj bi
            ((st.1.set j m.1).set i { bi with active := false }, st.2 || m.2)
        else st
      else st
  | _, _ => st

/-- Outer-loop row `i` of `handle_collisions`: skipped when `bodies[i]` is
inactive at the start of the row; otherwise scans `j = i+1 …`. -/
def collideRow (st : List Body × Bool) (i : ℕ) : List Body × Bool :=
  match st.1[i]? with
  | some bi =>
      if bi.active then
        (List.range' (i + 1) (st.1.length - (i + 1))).foldl (fun acc j => collideStep i j acc) st
      else st
  | none => st

/-- `handle_collisions`: the ascending pairwise collision-merge pass,
threading the `simulation_paused` flag (set when a merge clamps mass). -/
def handle_collisions (bs : List Body) (paused : Bool) : List Body × Bool :=
  (List.range bs.length).foldl collideRow (bs, paused)

/-! ### Body Store operations -/

/-- `add_body_with_velocity`: appends a new active body when below
capacity (a silent no-op when full).  `x`, `y`, `mass` are C `int`s, so
`mass / 200` in the radius formula is integer division; the color draws
are the three `rand()` values. -/
def add_body_with_velocity (px py mass : ℤ) (vx vy : ℝ) (cr cg cb : ℕ)
    (bs : List Body) : List Body :=
  if bs.length < MAX_BODIES then
    bs ++ [{ x := num px, y := num py, vx := num vx, vy := num vy,
             ax := num 0, ay := num 0, mass := num mass,
             radius := num (BODY_RADIUS + ((mass / 200 : ℤ) : ℝ)),
             active := true, r := cr % 256, g := cg % 256, b := cb % 256 }]
  else bs

/-- `add_body`: stationary spawn, delegating to `add_body_with_velocity`. -/
def add_body (px py mass : ℤ) (cr cg cb : ℕ) (bs : List Body) : List Body :=
  add_body_with_velocity px py mass 0 0 cr cg cb bs

/-- The click-to-body distance computed by `delete_body_at`:
`sqrt(dx*dx + dy*dy)` with `dx = x - body.x`, `dy = y - body.y`. -/
def distTo (px py : ℝ) (bi : Body) : D :=
  dSqrt (dAdd (dMul (dSub (num px) bi.x) (dSub (num px) bi.x))
              (dMul (dSub (num py) bi.y) (dSub (num py) bi.y)))

/-- Recursive scan of `delete_body_at` starting at index `i`: deactivates
the first active body whose radius contains the click point and returns
its index; returns `none` (the source's `-1`) when no body matches. -/
def deleteScan (px py : ℝ) (i : ℕ) : List Body → List Body × Option ℕ
  | [] => ([], none)
  | bi :: rest =>
      if bi.active then
        if dLe (distTo px py bi) bi.radius then ({ bi with active := false } :: rest, some i)
        else
          let out := deleteScan px py (i + 1) rest
          (bi :: out.1, out.2)
      else
        let out := deleteScan px py (i + 1) rest
        (bi :: out.1, out.2)

/-- `delete_body_at`: scans the bodies in index order and deactivates the
first active one containing the click point (`dist <= radius`). -/
def delete_body_at (px py : ℤ) (bs : List Body) : List Body × Option ℕ :=
  deleteScan px py 0 bs

/-! ### The per-frame physics tick (main loop, lines 477–488) -/

/-- Outcome of one physics phase of the main loop. -/
structure TickOut where
  state : SimState
  ranPhysics : Bool
  becameUnstable : Bool
  advisories : ℕ

/-- One physics phase of the main loop: skipped when paused; otherwise the
stability check either pauses the simulation (reporting instability, with
no physics run) or the three physics phases run in order. -/
def tick (w h : ℝ) (s : SimState) : TickOut :=
  if s.paused then ⟨s, false, false, 0⟩
  else if check_stability s.bodies then
    let bs1 := calculate_forces s.bodies
    let upd := update_bodies w h s.warnShown bs1
    let col := handle_collisions upd.1 s.paused
    ⟨{ bodies := col.1, paused := col.2, warnShown := upd.2.1 }, true, false, upd.2.2⟩
  else ⟨{ s with paused := true }, false, true, 0⟩

/-! ### `init_bodies` and the main-loop operations (for the advisory claim) -/

/-- The eight `rand()` draws consumed for one body in `init_bodies`. -/
structure Draw where
  rx : ℕ
  ry : ℕ
  rvx : ℕ
  rvy : ℕ
  rm : ℕ
  rr : ℕ
  rg : ℕ
  rb : ℕ
deriving DecidableEq

/-- One body built by `init_bodies` from its draws: uniform position in
the window, velocity components in `[-1, 0.98]`, mass in `[100, 999]`,
radius derived from the (double) mass, random color. -/
def drawBody (w h : ℕ) (d : Draw) : Body :=
  { x := num (d.rx % w), y := num (d.ry % h),
    vx := num ((((d.rvx % 100 : ℕ) : ℝ) - 50) / 50),
    vy := num ((((d.rvy % 100 : ℕ) : ℝ) - 50) / 50),
    ax := num 0, ay := num 0,
    mass := num (100 + (d.rm % 900 : ℕ)),
    radius := num (BODY_RADIUS + ((100 + (d.rm % 900 : ℕ) : ℕ) : ℝ) / 200),
    active := true, r := d.rr % 256, g := d.rg % 256, b := d.rb % 256 }

/-- `init_bodies`: `body_count = 5` randomized bodies (the random stream
is passed in as draws). -/
def init_bodies (w h : ℕ) (draws : List Draw) : List Body :=
  (draws.take 5).map (drawBody w h)

/-- The main-loop operations relevant to the velocity-clamp advisory: a
physics tick, the Space-key reset handler, and a drag-to-launch. -/
inductive LoopOp where
  | opTick : LoopOp
  | opReset : List Draw → LoopOp
  | opLaunch : ℤ → ℤ → ℤ → ℤ → ℕ → ℕ → ℕ → LoopOp
deriving DecidableEq

/-- Effect of one main-loop operation on the simulation state, paired with
the number of velocity-clamp advisories it prints.  The reset handler
(lines 421–426) reinitializes the bodies and clears both the pause flag
and `warning_shown`; a drag-to-launch adds a mass-500 body at the drag
start with velocity `(drag) / 10`. -/
def runOp (w h : ℕ) (s : SimState) : LoopOp → SimState × ℕ
  | .opTick => let t := tick w h s; (t.state, t.advisories)
  | .opReset draws => ({ bodies := init_bodies w h draws, paused := false, warnShown := false }, 0)
  | .opLaunch sx sy ex ey cr cg cb =>
      ({ s with bodies := add_body_with_velocity sx sy 500
                  (((sx - ex : ℤ) : ℝ) / 10) (((sy - ey : ℤ) : ℝ) / 10) cr cg cb s.bodies }, 0)

/-- Run a sequence of main-loop operations, accumulating the advisory
count. -/
def runOps (w h : ℕ) (s : SimState) : List LoopOp → SimState × ℕ
  | [] => (s, 0)
  | op :: rest =>
      let o := runOp w h s op
      let out := runOps w h o.1 rest
      (out.1, o.2 + out.2)

/-! ### Helper lemmas -/

/-- Speed of a finite velocity vector, as the source computes it:
`sqrt(vx*vx + vy*vy)`. -/
def speedR (vx vy : ℝ) : ℝ := Real.sqrt (vx * vx + vy * vy)

theorem speedR_nonneg (vx vy : ℝ) : 0 ≤ speedR vx vy := Real.sqrt_nonneg _

theorem sqrt_of_sq {a b : ℝ} (hb : 0 ≤ b) (he : a = b ^ 2) : Real.sqrt a = b := by
  rw [he, Real.sqrt_sq hb]

@[simp] theorem sqrt25 : Real.sqrt 25 = 5 := sqrt_of_sq (by norm_num) (by norm_num)
@[simp] theorem sqrt100 : Real.sqrt 100 = 10 := sqrt_of_sq (by norm_num) (by norm_num)
@[simp] theorem sqrt3600 : Real.sqrt 3600 = 60 := sqrt_of_sq (by norm_num) (by norm_num)
@[simp] theorem sqrt640000 : Real.sqrt 640000 = 800 := sqrt_of_sq (by norm_num) (by norm_num)

/-- `sqrt 2 ≤ 50`; resolves the velocity-clamp test for the slow
initial bodies in concrete evaluations. -/
theorem sqrt_two_le : Real.sqrt 2 ≤ 50 := by
  have h := Real.sqrt_le_sqrt (show (2 : ℝ) ≤ 2500 by norm_num)
  calc Real.sqrt 2 ≤ Real.sqrt 2500 := h
    _ = 50 := sqrt_of_sq (by norm_num) (by norm_num)

@[simp] theorem sqrt_two_not_gt : ¬ ((50 : ℝ) < Real.sqrt 2) := not_lt.mpr sqrt_two_le

theorem deleteScan_none (px py : ℝ) (i : ℕ) (bs : List Body)
    (h : (deleteScan px py i bs).2 = none) :
    (deleteScan px py i bs).1 = bs ∧
    ∀ bi ∈ bs, bi.active = true → dLe (distTo px py bi) bi.radius = false := by
  induction bs generalizing i with
  | nil => exact ⟨rfl, by simp⟩
  | cons hd tl ih =>
      by_cases hact : hd.active = true
      · by_cases hin : dLe (distTo px py hd) hd.radius = true
        · exfalso
          simp [deleteScan, hact, hin] at h
        · have h' : (deleteScan px py (i + 1) tl).2 = none := by
            simpa [deleteScan, hact, hin] using h
          obtain ⟨h1, h2⟩ := ih (i + 1) h'
          refine ⟨by simp [deleteScan, hact, hin, h1], ?_⟩
          intro bi hmem hbi
          rcases List.mem_cons.mp hmem with heq | hmem'
          · subst heq; simpa using hin
          · exact h2 bi hmem' hbi
      · simp only [Bool.not_eq_true] at hact
        have h' : (deleteScan px py (i + 1) tl).2 = none := by
          simpa [deleteScan, hact] using h
        obtain ⟨h1, h2⟩ := ih (i + 1) h'
        refine ⟨by simp [deleteScan, hact, h1], ?_⟩
        intro bi hmem hbi
        rcases List.mem_cons.mp hmem with heq | hmem'
        · subst heq; simp [hact] at hbi
        · exact h2 bi hmem' hbi

theorem deleteScan_some (px py : ℝ) (i k : ℕ) (bs : List Body)
    (h : (deleteScan px py i bs).2 = some k) :
    ∃ pre bi post, bs = pre ++ bi :: post ∧ k = i + pre.length ∧
      bi.active = true ∧ dLe (distTo px py bi) bi.radius = true ∧
      (∀ bj ∈ pre, bj.active = true → dLe (distTo px py bj) bj.radius = false) ∧
      (deleteScan px py i bs).1 = pre ++ ({ bi with active := false } :: post) := by
  induction bs generalizing i with
  | nil => simp [deleteScan] at h
  | cons hd tl ih =>
      by_cases hact : hd.active = true
      · by_cases hin : dLe (distTo px py hd) hd.radius = true
        · have hk : k = i := by simpa [deleteScan, hact, hin] using h.symm
          exact ⟨[], hd, tl, by simp, by simp [hk], hact, hin, by simp,
            by simp [deleteScan, hact, hin]⟩
        · have h' : (deleteScan px py (i + 1) tl).2 = some k := by
            simpa [deleteScan, hact, hin] using h
          obtain ⟨pre, bi, post, hsplit, hk, hbact, hbin, hpre, hres⟩ := ih (i + 1) h'
          refine ⟨hd :: pre, bi, post, by simp [hsplit], by simp [hk]; omega, hbact, hbin, ?_, ?_⟩
          · intro bj hmem hbj
            rcases List.mem_cons.mp hmem with heq | hmem'
            · subst heq; simpa using hin
            · exact hpre bj hmem' hbj
          · simp [deleteScan, hact, hin, hres]
      · simp only [Bool.not_eq_true] at hact
        have h' : (deleteScan px py (i + 1) tl).2 = some k := by
          simpa [deleteScan, hact] using h
        obtain ⟨pre, bi, post, hsplit, hk, hbact, hbin, hpre, hres⟩ := ih (i + 1) h'
        refine ⟨hd :: pre, bi, post, by simp [hsplit], by simp [hk]; omega, hbact, hbin, ?_, ?_⟩
        · intro bj hmem hbj
          rcases List.mem_cons.mp hmem with heq | hmem'
          · subst heq; simp [hact] at hbj
          · exact hpre bj hmem' hbj
        · simp [deleteScan, hact, hres]

theorem check_stability_eq_false {bs : List Body} {bi : Body} (hmem : bi ∈ bs)
    (ha : bi.active = true) (hbad : badValues bi = true) :
    check_stability bs = false := by
  induction bs with
  | nil => cases hmem
  | cons hd tl ih =>
      rcases List.mem_cons.mp hmem with heq | hmem'
      · subst heq
        simp [check_stability, ha, hbad]
      · by_cases hact : hd.active = true
        · by_cases hbadhd : badValues hd = true
          · simp [check_stability, hact, hbadhd]
          · simp [check_stability, hact, hbadhd, ih hmem']
        · simp only [Bool.not_eq_true] at hact
          simp [check_stability, hact, ih hmem']

/-! ### Claim theorems -/

/-- Claim C6: if any active body has a NaN or infinite position or
velocity component, a (non-paused) tick reports an unstable verdict,
performs no physics (the bodies are returned unchanged, so no
acceleration, velocity or position is mutated), pauses the simulation
and emits no advisory. -/
theorem C6_unstable_tick (w h : ℝ) (s : SimState) (bi : Body)
    (hp : s.paused = false) (hmem : bi ∈ s.bodies) (ha : bi.active = true)
    (hbad : badValues bi = true) :
    (tick w h s).becameUnstable = true ∧ (tick w h s).ranPhysics = false ∧
    (tick w h s).state.bodies = s.bodies ∧ (tick w h s).state.paused = true ∧
    (tick w h s).advisories = 0 := by
  have hcs : check_stability s.bodies = false := check_stability_eq_false hmem ha hbad
  simp [tick, hp, hcs]

/-- Witness for C6 at a concrete state: one active body with NaN `x`. -/
theorem C6_unstable_tick_witness :
    (tick 1200 800 ⟨[⟨D.nan, num 0, num 0, num 0, num 0, num 0, num 100, num 5, true, 0, 0, 0⟩],
        false, false⟩).becameUnstable = true ∧
    (tick 1200 800 ⟨[⟨D.nan, num 0, num 0, num 0, num 0, num 0, num 100, num 5, true, 0, 0, 0⟩],
        false, false⟩).state.bodies =
      [⟨D.nan, num 0, num 0, num 0, num 0, num 0, num 100, num 5, true, 0, 0, 0⟩] := by
  have h := C6_unstable_tick 1200 800
    ⟨[⟨D.nan, num 0, num 0, num 0, num 0, num 0, num 100, num 5, true, 0, 0, 0⟩], false, false⟩
    ⟨D.nan, num 0, num 0, num 0, num 0, num 0, num 100, num 5, true, 0, 0, 0⟩
    rfl (List.mem_singleton.mpr rfl) rfl rfl
  exact ⟨h.1, h.2.2.1⟩

/-- Claim C9: the toroidal wrap sets a coordinate strictly below the lower
bound exactly to the upper bound, and a coordinate strictly above the
upper bound exactly to the lower bound; in particular -5 wraps to 1200
(not 1195) and 1205 wraps to 0 for viewport width 1200. -/
theorem C9_wrap :
    (∀ (w x : ℝ), x < 0 → wrapCoord w (num x) = num w) ∧
    (∀ (w x : ℝ), 0 ≤ x → w < x → wrapCoord w (num x) = num 0) ∧
    wrapCoord 1200 (num (-5)) = num 1200 ∧
    wrapCoord 1200 (num 1205) = num 0 := by
  refine ⟨?_, ?_, ?_, ?_⟩
  · intro w x hx
    simp [wrapCoord, hx, lt_irrefl]
  · intro w x hx hwx
    simp [wrapCoord, not_lt.mpr hx, hwx]
  · norm_num [wrapCoord]
  · norm_num [wrapCoord]

/-- Witness for C9's quantified parts at concrete inputs. -/
theorem C9_wrap_witness :
    wrapCoord 7 (num (-2)) = num 7 ∧ wrapCoord 7 (num 8) = num 0 :=
  ⟨C9_wrap.1 7 (-2) (by norm_num), C9_wrap.2.1 7 8 (by norm_num) (by norm_num)⟩

/-- Counterexample for claim C5: spawning a body of mass 20000 — below
`MAX_MASS` — via `add_body_with_velocity` produces radius 105, strictly
above `MAX_RADIUS`: spawn does not clamp the radius. -/
theorem C5_cex :
    (add_body_with_velocity 5 5 20000 0 0 0 0 0 []).map Body.radius = [num 105] ∧
    (20000 : ℝ) ≤ MAX_MASS ∧ MAX_RADIUS < 105 := by
  refine ⟨?_, by norm_num [MAX_MASS], by norm_num [MAX_RADIUS]⟩
  norm_num [add_body_with_velocity, MAX_BODIES, BODY_RADIUS]

/-- Claim C7 (amended): `delete_body_at` deactivates and returns the index
of the lowest-indexed (first in scan order, not nearest) active body whose
radius contains the point; when no active body contains the point it
returns not-found and leaves every body unchanged. -/
theorem C7_delete (px py : ℤ) (bs : List Body) :
    ((delete_body_at px py bs).2 = none →
      (delete_body_at px py bs).1 = bs ∧
      ∀ bi ∈ bs, bi.active = true → dLe (distTo px py bi) bi.radius = false) ∧
    (∀ k, (delete_body_at px py bs).2 = some k →
      ∃ pre bi post, bs = pre ++ bi :: post ∧ k = pre.length ∧
        bi.active = true ∧ dLe (distTo px py bi) bi.radius = true ∧
        (∀ bj ∈ pre, bj.active = true → dLe (distTo px py bj) bj.radius = false) ∧
        (delete_body_at px py bs).1 = pre ++ ({ bi with active := false } :: post)) := by
  constructor
  · intro h
    exact deleteScan_none px py 0 bs h
  · intro k h
    obtain ⟨pre, bi, post, hsplit, hk, hbact, hbin, hpre, hres⟩ :=
      deleteScan_some px py 0 k bs h
    exact ⟨pre, bi, post, hsplit, by omega, hbact, hbin, hpre, hres⟩

/-- Witness for C7's amended statement on a concrete store: one active
body at (3,4) with radius 4 does not contain the click point (0,0)
(distance 5), so the delete is a no-op returning not-found. -/
theorem C7_delete_witness :
    (delete_body_at 0 0 [⟨num 3, num 4, num 0, num 0, num 0, num 0, num 100, num 4, true, 0, 0, 0⟩]).1
      = [⟨num 3, num 4, num 0, num 0, num 0, num 0, num 100, num 4, true, 0, 0, 0⟩] ∧
    ∀ bi ∈ [(⟨num 3, num 4, num 0, num 0, num 0, num 0, num 100, num 4, true, 0, 0, 0⟩ : Body)],
      bi.active = true → dLe (distTo 0 0 bi) bi.radius = false := by
  have h := (C7_delete 0 0
    [⟨num 3, num 4, num 0, num 0, num 0, num 0, num 100, num 4, true, 0, 0, 0⟩]).1
    (by norm_num [delete_body_at, deleteScan, distTo])
  simpa using h

/-- Counterexample for claim C7: with body 0 at (10,0) and body 1 at
(0,0), both active with radius 20, a delete at (0,0) returns index 0 —
the first containing body in scan order — even though body 1 also
contains the point and is strictly nearer (distance 0 versus 10):
`delete_body_at` does not pick the nearest body. -/
theorem C7_cex :
    (delete_body_at 0 0
      [⟨num 10, num 0, num 0, num 0, num 0, num 0, num 100, num 20, true, 0, 0, 0⟩,
       ⟨num 0, num 0, num 0, num 0, num 0, num 0, num 100, num 20, true, 0, 0, 0⟩]).2 = some 0 ∧
    distTo 0 0 ⟨num 10, num 0, num 0, num 0, num 0, num 0, num 100, num 20, true, 0, 0, 0⟩ = num 10 ∧
    distTo 0 0 ⟨num 0, num 0, num 0, num 0, num 0, num 0, num 100, num 20, true, 0, 0, 0⟩ = num 0 ∧
    dLe (num 0) (num 20) = true ∧ (0 : ℝ) < 10 := by
  refine ⟨?_, ?_, ?_, by norm_num, by norm_num⟩
  · norm_num [delete_body_at, deleteScan, distTo]
  · norm_num [distTo]
  · norm_num [distTo]

/-- Claim C5 (amended): after any merge the recomputed radius is clamped
to `MAX_RADIUS`; a spawned body's radius is `BODY_RADIUS + mass/200`
(integer division) with no clamp, which stays within `MAX_RADIUS`
exactly when the spawn mass is at most 19199 (as every mass the program
itself spawns is). -/
theorem C5_radius :
    (∀ (L S : Body) (m1 m2 : ℝ), L.mass = num m1 → S.mass = num m2 →
      ∃ rr : ℝ, (mergeBodies L S).1.radius = num rr ∧ rr ≤ MAX_RADIUS) ∧
    (∀ (m : ℤ), 0 ≤ m → m ≤ 19199 →
      ∀ (px py : ℤ) (vx vy : ℝ) (cr cg cb : ℕ) (bs : List Body) (bi : Body),
        bi ∈ add_body_with_velocity px py m vx vy cr cg cb bs →
        bi ∈ bs ∨ ∃ rr : ℝ, bi.radius = num rr ∧ rr ≤ MAX_RADIUS) := by
  constructor
  · intro L S m1 m2 hm1 hm2
    simp only [mergeBodies, hm1, hm2, dAdd_num, dLt_num, dDiv_num, dMul_num]
    by_cases hc : MAX_MASS < m1 + m2
    · by_cases hr : MAX_RADIUS < BODY_RADIUS + MAX_MASS / 200
      · exact ⟨MAX_RADIUS, by norm_num [hc, hr], le_refl _⟩
      · exact ⟨BODY_RADIUS + MAX_MASS / 200, by norm_num [hc, hr], not_lt.mp hr⟩
    · by_cases hr : MAX_RADIUS < BODY_RADIUS + (m1 + m2) / 200
      · exact ⟨MAX_RADIUS, by norm_num [hc, hr], le_refl _⟩
      · exact ⟨BODY_RADIUS + (m1 + m2) / 200, by norm_num [hc, hr], not_lt.mp hr⟩
  · intro m hm0 hm19 px py vx vy cr cg cb bs bi hmem
    by_cases hcap : bs.length < MAX_BODIES
    · rw [add_body_with_velocity, if_pos hcap] at hmem
      rcases List.mem_append.mp hmem with hmem' | hmem'
      · exact Or.inl hmem'
      · right
        refine ⟨BODY_RADIUS + ((m / 200 : ℤ) : ℝ), by simp [List.mem_singleton.mp hmem'], ?_⟩
        have hdiv : (m / 200 : ℤ) ≤ 95 := by omega
        have : ((m / 200 : ℤ) : ℝ) ≤ 95 := by exact_mod_cast hdiv
        norm_num [BODY_RADIUS, MAX_RADIUS]
        linarith
    · rw [add_body_with_velocity, if_neg hcap] at hmem
      exact Or.inl hmem

/-- Witness for C5's amended statement: a 40000+30000 merge (clamped) and
a mass-500 spawn into an empty store. -/
theorem C5_radius_witness :
    (∃ rr : ℝ,
      (mergeBodies ⟨num 0, num 0, num 0, num 0, num 0, num 0, num 40000, num 100, true, 0, 0, 0⟩
        ⟨num 0, num 0, num 0, num 0, num 0, num 0, num 30000, num 100, true, 0, 0, 0⟩).1.radius
        = num rr ∧ rr ≤ MAX_RADIUS) ∧
    ((⟨num 1, num 2, num 0, num 0, num 0, num 0, num 500, num 7, true, 0, 0, 0⟩ : Body) ∈
        ([] : List Body) ∨
      ∃ rr : ℝ,
        (⟨num 1, num 2, num 0, num 0, num 0, num 0, num 500, num 7, true, 0, 0, 0⟩ : Body).radius
          = num rr ∧ rr ≤ MAX_RADIUS) := by
  constructor
  · exact C5_radius.1 _ _ 40000 30000 rfl rfl
  · refine C5_radius.2 500 (by norm_num) (by norm_num) 1 2 0 0 0 0 0 [] _ ?_
    norm_num [add_body_with_velocity, MAX_BODIES, BODY_RADIUS]

/-- The merge-velocity formula of `mergeBodies`, for finite inputs with
positive masses: component-wise momentum-weighted average with pre-clamp
masses over the clamped total. -/
theorem mergeBodies_vel (L S : Body) (m1 m2 v1x v1y v2x v2y : ℝ)
    (hm1 : L.mass = num m1) (hv1x : L.vx = num v1x) (hv1y : L.vy = num v1y)
    (hm2 : S.mass = num m2) (hv2x : S.vx = num v2x) (hv2y : S.vy = num v2y)
    (hp1 : 0 < m1) (hp2 : 0 < m2) :
    (mergeBodies L S).1.vx =
      num ((m1 * v1x + m2 * v2x) / (if MAX_MASS < m1 + m2 then MAX_MASS else m1 + m2)) ∧
    (mergeBodies L S).1.vy =
      num ((m1 * v1y + m2 * v2y) / (if MAX_MASS < m1 + m2 then MAX_MASS else m1 + m2)) := by
  simp only [mergeBodies, hm1, hm2, hv1x, hv1y, hv2x, hv2y, dAdd_num, dMul_num, dLt_num]
  by_cases hc : MAX_MASS < m1 + m2
  · have hden : MAX_MASS ≠ 0 := by norm_num [MAX_MASS]
    simp [hc, hden]
  · have hden : m1 + m2 ≠ 0 := by positivity
    simp [hc, hden]

/-- Claim C3: the absorber's post-merge velocity is the momentum-weighted
average computed component-wise with the pre-clamp masses in the numerator
and the clamped total mass as the denominator; in particular merging mass
100 at velocity (2,0) with mass 300 at velocity (0,0) at the same point
yields velocity (0.5, 0). -/
theorem C3_merge_velocity :
    (∀ (L S : Body) (m1 m2 v1x v1y v2x v2y : ℝ),
      L.mass = num m1 → L.vx = num v1x → L.vy = num v1y →
      S.mass = num m2 → S.vx = num v2x → S.vy = num v2y →
      0 < m1 → 0 < m2 →
      (mergeBodies L S).1.vx =
        num ((m1 * v1x + m2 * v2x) / (if MAX_MASS < m1 + m2 then MAX_MASS else m1 + m2)) ∧
      (mergeBodies L S).1.vy =
        num ((m1 * v1y + m2 * v2y) / (if MAX_MASS < m1 + m2 then MAX_MASS else m1 + m2))) ∧
    handle_collisions
      [⟨num 100, num 100, num 2, num 0, num 0, num 0, num 100, num 5.5, true, 0, 0, 0⟩,
       ⟨num 100, num 100, num 0, num 0, num 0, num 0, num 300, num 6.5, true, 0, 0, 0⟩] false =
    ([⟨num 100, num 100, num 2, num 0, num 0, num 0, num 100, num 5.5, false, 0, 0, 0⟩,
      ⟨num 100, num 100, num 0.5, num 0, num 0, num 0, num 400, num 7, true, 0, 0, 0⟩], false) := by
  constructor
  · intro L S m1 m2 v1x v1y v2x v2y hm1 hv1x hv1y hm2 hv2x hv2y hp1 hp2
    exact mergeBodies_vel L S m1 m2 v1x v1y v2x v2y hm1 hv1x hv1y hm2 hv2x hv2y hp1 hp2
  · have hr : List.range 2 = [0, 1] := by decide
    have hr1 : List.range' 1 1 = [1] := by decide
    have hr2 : List.range' 2 0 = [] := by decide
    norm_num [handle_collisions, collideRow, collideStep, mergeBodies, D.toByte, hr, hr1, hr2,
      MAX_MASS, MAX_RADIUS, BODY_RADIUS]

/-- Witness for C3's quantified part: a clamped 40000+30000 merge where
the absorber has velocity (1,0) and the absorbed (0,0); the weights use
the pre-clamp masses over the clamped denominator 50000. -/
theorem C3_merge_velocity_witness :
    (mergeBodies ⟨num 0, num 0, num 1, num 0, num 0, num 0, num 40000, num 100, true, 0, 0, 0⟩
        ⟨num 0, num 0, num 0, num 0, num 0, num 0, num 30000, num 100, true, 0, 0, 0⟩).1.vx =
      num ((40000 * 1 + 30000 * 0) /
        (if MAX_MASS < 40000 + 30000 then MAX_MASS else 40000 + 30000)) ∧
    (mergeBodies ⟨num 0, num 0, num 1, num 0, num 0, num 0, num 40000, num 100, true, 0, 0, 0⟩
        ⟨num 0, num 0, num 0, num 0, num 0, num 0, num 30000, num 100, true, 0, 0, 0⟩).1.vy =
      num ((40000 * 0 + 30000 * 0) /
        (if MAX_MASS < 40000 + 30000 then MAX_MASS else 40000 + 30000)) :=
  C3_merge_velocity.1 _ _ 40000 30000 1 0 0 0 rfl rfl rfl rfl rfl rfl
    (by norm_num) (by norm_num)

/-- The bodies list produced by `update_bodies` is the per-body map of
`updateBody`: the advisory bookkeeping does not change any body. -/
theorem update_bodies_fst (w h : ℝ) (warn : Bool) (bs : List Body) :
    (update_bodies w h warn bs).1 = bs.map (updateBody w h) := by
  induction bs generalizing warn with
  | nil => rfl
  | cons hd tl ih =>
      by_cases hact : hd.active = true
      · simp [update_bodies, hact, ih]
      · simp only [Bool.not_eq_true] at hact
        simp [update_bodies, hact, ih, updateBody]

theorem speedR_scale (t a b : ℝ) (ht : 0 ≤ t) :
    speedR (a * t) (b * t) = t * speedR a b := by
  have harg : a * t * (a * t) + b * t * (b * t) = t ^ 2 * (a * a + b * b) := by ring
  rw [speedR, harg, Real.sqrt_mul (sq_nonneg t), Real.sqrt_sq ht, speedR]

/-- Two-dimensional Cauchy–Schwarz in the form the convexity bound needs. -/
theorem inner_le_speedR (x1 y1 x2 y2 : ℝ) :
    x1 * x2 + y1 * y2 ≤ speedR x1 y1 * speedR x2 y2 := by
  have h1 : 0 ≤ speedR x1 y1 := speedR_nonneg _ _
  have h2 : 0 ≤ speedR x2 y2 := speedR_nonneg _ _
  rcases le_or_lt (x1 * x2 + y1 * y2) 0 with hq | hq
  · exact le_trans hq (mul_nonneg h1 h2)
  · have hs1 : speedR x1 y1 ^ 2 = x1 * x1 + y1 * y1 :=
      Real.sq_sqrt (add_nonneg (mul_self_nonneg _) (mul_self_nonneg _))
    have hs2 : speedR x2 y2 ^ 2 = x2 * x2 + y2 * y2 :=
      Real.sq_sqrt (add_nonneg (mul_self_nonneg _) (mul_self_nonneg _))
    have hP2 : (x1 * x2 + y1 * y2) ^ 2 ≤ (speedR x1 y1 * speedR x2 y2) ^ 2 := by
      have hexp : (speedR x1 y1 * speedR x2 y2) ^ 2 = (x1 * x1 + y1 * y1) * (x2 * x2 + y2 * y2) := by
        rw [mul_pow, hs1, hs2]
      rw [hexp]
      nlinarith [sq_nonneg (x1 * y2 - x2 * y1)]
    have := Real.sqrt_le_sqrt hP2
    rwa [Real.sqrt_sq hq.le, Real.sqrt_sq (mul_nonneg h1 h2)] at this

/-- The speed of a nonnegative combination of two velocity vectors is at
most the same combination of the two speeds (triangle inequality). -/
theorem speedR_convex (a b x1 y1 x2 y2 : ℝ) (ha : 0 ≤ a) (hb : 0 ≤ b) :
    speedR (a * x1 + b * x2) (a * y1 + b * y2) ≤
      a * speedR x1 y1 + b * speedR x2 y2 := by
  have hc : 0 ≤ a * speedR x1 y1 + b * speedR x2 y2 :=
    add_nonneg (mul_nonneg ha (speedR_nonneg _ _)) (mul_nonneg hb (speedR_nonneg _ _))
  have hs1 : speedR x1 y1 ^ 2 = x1 * x1 + y1 * y1 :=
    Real.sq_sqrt (add_nonneg (mul_self_nonneg _) (mul_self_nonneg _))
  have hs2 : speedR x2 y2 ^ 2 = x2 * x2 + y2 * y2 :=
    Real.sq_sqrt (add_nonneg (mul_self_nonneg _) (mul_self_nonneg _))
  have hin := inner_le_speedR x1 y1 x2 y2
  have hE : (a * x1 + b * x2) * (a * x1 + b * x2) + (a * y1 + b * y2) * (a * y1 + b * y2)
      ≤ (a * speedR x1 y1 + b * speedR x2 y2) ^ 2 := by
    have key : (a * speedR x1 y1 + b * speedR x2 y2) ^ 2
        = a ^ 2 * (x1 * x1 + y1 * y1) +
          2 * (a * b) * (speedR x1 y1 * speedR x2 y2) + b ^ 2 * (x2 * x2 + y2 * y2) := by
      have hq : (a * speedR x1 y1 + b * speedR x2 y2) ^ 2
          = a ^ 2 * speedR x1 y1 ^ 2 +
            2 * (a * b) * (speedR x1 y1 * speedR x2 y2) + b ^ 2 * speedR x2 y2 ^ 2 := by
        ring
      rw [hq, hs1, hs2]
    have h2ab : 2 * (a * b) * (x1 * x2 + y1 * y2)
        ≤ 2 * (a * b) * (speedR x1 y1 * speedR x2 y2) :=
      mul_le_mul_of_nonneg_left hin (by positivity)
    rw [key]
    nlinarith [h2ab]
  calc speedR (a * x1 + b * x2) (a * y1 + b * y2)
      ≤ Real.sqrt ((a * speedR x1 y1 + b * speedR x2 y2) ^ 2) := Real.sqrt_le_sqrt hE
    _ = a * speedR x1 y1 + b * speedR x2 y2 := Real.sqrt_sq hc

/-- Claim C4: after the integration step, an active body with finite
state has speed at most `MAX_VELOCITY`; when the post-Euler speed exceeds
`MAX_VELOCITY` the velocity is rescaled to magnitude exactly
`MAX_VELOCITY` with direction preserved (each component is multiplied by
the same positive factor `MAX_VELOCITY / speed`).  The bodies list of
`update_bodies` is exactly the per-body map of `updateBody`, so this
covers every body of the integrator pass. -/
theorem C4_velocity_clamp (w h : ℝ) (bi : Body) (vx vy ax ay : ℝ)
    (ha : bi.active = true) (hvx : bi.vx = num vx) (hvy : bi.vy = num vy)
    (hax : bi.ax = num ax) (hay : bi.ay = num ay) :
    (∃ vx1 vy1 : ℝ,
      (updateBody w h bi).vx = num vx1 ∧ (updateBody w h bi).vy = num vy1 ∧
      speedR vx1 vy1 ≤ MAX_VELOCITY ∧
      (MAX_VELOCITY < speedR (vx + ax * TIME_STEP) (vy + ay * TIME_STEP) →
        speedR vx1 vy1 = MAX_VELOCITY ∧
        vx1 = (vx + ax * TIME_STEP) *
          (MAX_VELOCITY / speedR (vx + ax * TIME_STEP) (vy + ay * TIME_STEP)) ∧
        vy1 = (vy + ay * TIME_STEP) *
          (MAX_VELOCITY / speedR (vx + ax * TIME_STEP) (vy + ay * TIME_STEP)) ∧
        0 < MAX_VELOCITY / speedR (vx + ax * TIME_STEP) (vy + ay * TIME_STEP))) ∧
    (∀ (warn : Bool) (bs : List Body),
      (update_bodies w h warn bs).1 = bs.map (updateBody w h)) := by
  constructor
  · set vx1 := vx + ax * TIME_STEP with hvx1
    set vy1 := vy + ay * TIME_STEP with hvy1
    have harg : ¬ (vx1 * vx1 + vy1 * vy1 < 0) :=
      not_lt.mpr (add_nonneg (mul_self_nonneg _) (mul_self_nonneg _))
    have hsp : speedR vx1 vy1 = Real.sqrt (vx1 * vx1 + vy1 * vy1) := rfl
    by_cases hcl : MAX_VELOCITY < Real.sqrt (vx1 * vx1 + vy1 * vy1)
    · have hspos : (0 : ℝ) < Real.sqrt (vx1 * vx1 + vy1 * vy1) := by
        have : (0 : ℝ) < MAX_VELOCITY := by norm_num [MAX_VELOCITY]
        linarith
      have hsne : Real.sqrt (vx1 * vx1 + vy1 * vy1) ≠ 0 := ne_of_gt hspos
      have hsc : 0 ≤ MAX_VELOCITY / Real.sqrt (vx1 * vx1 + vy1 * vy1) :=
        div_nonneg (by norm_num [MAX_VELOCITY]) hspos.le
      have hmain : MAX_VELOCITY / Real.sqrt (vx1 * vx1 + vy1 * vy1) *
          Real.sqrt (vx1 * vx1 + vy1 * vy1) = MAX_VELOCITY :=
        div_mul_cancel₀ _ hsne
      refine ⟨vx1 * (MAX_VELOCITY / Real.sqrt (vx1 * vx1 + vy1 * vy1)),
              vy1 * (MAX_VELOCITY / Real.sqrt (vx1 * vx1 + vy1 * vy1)), ?_, ?_, ?_, ?_⟩
      · simp [updateBody, ha, hvx, hvy, hax, hay, harg, hcl, hsne, hvx1]
      · simp [updateBody, ha, hvx, hvy, hax, hay, harg, hcl, hsne, hvy1]
      · rw [speedR_scale _ _ _ hsc, hsp, hmain]
      · intro hgt
        refine ⟨?_, by rw [hsp], by rw [hsp], ?_⟩
        · rw [speedR_scale _ _ _ hsc, hsp, hmain]
        · rw [hsp]
          exact div_pos (by norm_num [MAX_VELOCITY]) hspos
    · refine ⟨vx1, vy1, ?_, ?_, ?_, ?_⟩
      · simp [updateBody, ha, hvx, hvy, hax, hay, harg, hcl, hvx1]
      · simp [updateBody, ha, hvx, hvy, hax, hay, harg, hcl, hvy1]
      · rw [hsp]; exact not_lt.mp hcl
      · intro hgt
        rw [hsp] at hgt
        exact absurd hgt hcl
  · intro warn bs
    exact update_bodies_fst w h warn bs

/-- Witness for C4 at a concrete over-speed body: velocity (60,0) with
zero acceleration must end at speed exactly 50. -/
theorem C4_velocity_clamp_witness :
    (∃ vx1 vy1 : ℝ,
      (updateBody 1200 800
        ⟨num 0, num 0, num 60, num 0, num 0, num 0, num 100, num 5, true, 0, 0, 0⟩).vx = num vx1 ∧
      (updateBody 1200 800
        ⟨num 0, num 0, num 60, num 0, num 0, num 0, num 100, num 5, true, 0, 0, 0⟩).vy = num vy1 ∧
      speedR vx1 vy1 ≤ MAX_VELOCITY ∧
      (MAX_VELOCITY < speedR (60 + 0 * TIME_STEP) (0 + 0 * TIME_STEP) →
        speedR vx1 vy1 = MAX_VELOCITY ∧
        vx1 = (60 + 0 * TIME_STEP) *
          (MAX_VELOCITY / speedR (60 + 0 * TIME_STEP) (0 + 0 * TIME_STEP)) ∧
        vy1 = (0 + 0 * TIME_STEP) *
          (MAX_VELOCITY / speedR (60 + 0 * TIME_STEP) (0 + 0 * TIME_STEP)) ∧
        0 < MAX_VELOCITY / speedR (60 + 0 * TIME_STEP) (0 + 0 * TIME_STEP))) ∧
    (∀ (warn : Bool) (bs : List Body),
      (update_bodies 1200 800 warn bs).1 = bs.map (updateBody 1200 800)) :=
  C4_velocity_clamp 1200 800
    ⟨num 0, num 0, num 60, num 0, num 0, num 0, num 100, num 5, true, 0, 0, 0⟩
    60 0 0 0 rfl rfl rfl rfl rfl

/-- Claim C10: when the combined mass of a merging pair does not exceed
`MAX_MASS`, the absorber's post-merge speed is at most the larger of the
two pre-merge speeds, since the merged velocity is the convex combination
of the two velocities with weights `m1/(m1+m2)` and `m2/(m1+m2)`. -/
theorem C10_merge_speed (L S : Body) (m1 m2 v1x v1y v2x v2y : ℝ)
    (hm1 : L.mass = num m1) (hv1x : L.vx = num v1x) (hv1y : L.vy = num v1y)
    (hm2 : S.mass = num m2) (hv2x : S.vx = num v2x) (hv2y : S.vy = num v2y)
    (hp1 : 0 < m1) (hp2 : 0 < m2) (hsum : m1 + m2 ≤ MAX_MASS) :
    ∃ ux uy : ℝ, (mergeBodies L S).1.vx = num ux ∧ (mergeBodies L S).1.vy = num uy ∧
      speedR ux uy ≤ max (speedR v1x v1y) (speedR v2x v2y) := by
  obtain ⟨hx, hy⟩ := mergeBodies_vel L S m1 m2 v1x v1y v2x v2y hm1 hv1x hv1y hm2 hv2x hv2y hp1 hp2
  rw [if_neg (not_lt.mpr hsum)] at hx hy
  have hs : (0 : ℝ) < m1 + m2 := by linarith
  have ha : 0 ≤ m1 / (m1 + m2) := by positivity
  have hb : 0 ≤ m2 / (m1 + m2) := by positivity
  have hab : m1 / (m1 + m2) + m2 / (m1 + m2) = 1 := by field_simp
  have hux : (m1 * v1x + m2 * v2x) / (m1 + m2)
      = (m1 / (m1 + m2)) * v1x + (m2 / (m1 + m2)) * v2x := by
    field_simp
  have huy : (m1 * v1y + m2 * v2y) / (m1 + m2)
      = (m1 / (m1 + m2)) * v1y + (m2 / (m1 + m2)) * v2y := by
    field_simp
  refine ⟨_, _, hx, hy, ?_⟩
  rw [hux, huy]
  calc speedR ((m1 / (m1 + m2)) * v1x + (m2 / (m1 + m2)) * v2x)
        ((m1 / (m1 + m2)) * v1y + (m2 / (m1 + m2)) * v2y)
      ≤ (m1 / (m1 + m2)) * speedR v1x v1y + (m2 / (m1 + m2)) * speedR v2x v2y :=
        speedR_convex _ _ _ _ _ _ ha hb
    _ ≤ (m1 / (m1 + m2)) * max (speedR v1x v1y) (speedR v2x v2y) +
        (m2 / (m1 + m2)) * max (speedR v1x v1y) (speedR v2x v2y) :=
        add_le_add (mul_le_mul_of_nonneg_left (le_max_left _ _) ha)
          (mul_le_mul_of_nonneg_left (le_max_right _ _) hb)
    _ = max (speedR v1x v1y) (speedR v2x v2y) := by rw [← add_mul, hab, one_mul]

/-- Witness for C10: the 100/300 merge of the spec's worked example. -/
theorem C10_merge_speed_witness :
    ∃ ux uy : ℝ,
      (mergeBodies ⟨num 100, num 100, num 0, num 0, num 0, num 0, num 300, num 6.5, true, 0, 0, 0⟩
        ⟨num 100, num 100, num 2, num 0, num 0, num 0, num 100, num 5.5, true, 0, 0, 0⟩).1.vx = num ux ∧
      (mergeBodies ⟨num 100, num 100, num 0, num 0, num 0, num 0, num 300, num 6.5, true, 0, 0, 0⟩
        ⟨num 100, num 100, num 2, num 0, num 0, num 0, num 100, num 5.5, true, 0, 0, 0⟩).1.vy = num uy ∧
      speedR ux uy ≤ max (speedR 0 0) (speedR 2 0) :=
  C10_merge_speed _ _ 300 100 0 0 2 0 rfl rfl rfl rfl rfl rfl
    (by norm_num) (by norm_num) (by norm_num [MAX_MASS])

/-! ### Mass accounting -/

/-- The mass-and-active-flag projection of a body, used to show which
phases leave masses and flags untouched. -/
def projMA (bi : Body) : D × Bool := (bi.mass, bi.active)

/-- Total mass of the active bodies (finite masses; `D.val`). -/
def activeMass (bs : List Body) : ℝ :=
  ((bs.filter fun bi => bi.active).map fun bi => bi.mass.val).sum

theorem set_of_get? {α : Type} (l : List α) (i : ℕ) (a : α)
    (h : l[i]? = some a) : l.set i a = l := by
  induction l generalizing i with
  | nil => simp at h
  | cons hd tl ih =>
      cases i with
      | zero =>
          simp only [List.getElem?_cons_zero, Option.some.injEq] at h
          simp [h]
      | succ n =>
          simp only [List.getElem?_cons_succ] at h
          simp [ih n h]

theorem foldl_map_projMA {β : Type} (f : List Body → β → List Body) (l : List β)
    (hf : ∀ st x, (f st x).map projMA = st.map projMA) (init : List Body) :
    ((l.foldl f init).map projMA) = init.map projMA := by
  induction l generalizing init with
  | nil => rfl
  | cons hd tl ih => rw [List.foldl_cons, ih, hf]

theorem projMA_update_accel (bi : Body) (a1 a2 : D) :
    projMA { bi with ax := a1, ay := a2 } = projMA bi := rfl

theorem forceStep_map_projMA (i j : ℕ) (bs : List Body) :
    (forceStep i j bs).map projMA = bs.map projMA := by
  rcases hgi : bs[i]? with _ | bi
  · simp [forceStep, hgi]
  · rcases hgj : bs[j]? with _ | bj
    · simp [forceStep, hgi, hgj]
    · by_cases hact : bj.active = true
      · simp only [forceStep, hgi, hgj]
        rw [if_pos hact, List.map_set, List.map_set, projMA_update_accel, projMA_update_accel]
        have h1 : (bs.map projMA).set i (projMA bi) = bs.map projMA :=
          set_of_get? _ _ _ (by rw [List.getElem?_map, hgi]; rfl)
        rw [h1]
        exact set_of_get? _ _ _ (by rw [List.getElem?_map, hgj]; rfl)
      · simp [forceStep, hgi, hgj, hact]

theorem calculate_forces_map_projMA (bs : List Body) :
    (calculate_forces bs).map projMA = bs.map projMA := by
  rw [calculate_forces]
  rw [foldl_map_projMA]
  · rw [resetAccels, List.map_map]
    congr 1
    funext bi
    simp only [Function.comp_apply]
    by_cases hact : bi.active = true
    · rw [if_pos hact, projMA_update_accel]
    · rw [if_neg hact]
  · intro st i
    rcases hgi : st[i]? with _ | bi
    · simp [forceRow, hgi]
    · by_cases hact : bi.active = true
      · simp only [forceRow, hgi, hact, if_true]
        exact foldl_map_projMA _ _ (fun st' j => forceStep_map_projMA i j st') st
      · simp [forceRow, hgi, hact]

theorem updateBody_projMA (w h : ℝ) (bi : Body) :
    projMA (updateBody w h bi) = projMA bi := by
  by_cases hact : bi.active = true
  · simp [updateBody, hact, projMA]
  · simp only [Bool.not_eq_true] at hact
    simp [updateBody, hact]

theorem update_bodies_map_projMA (w h : ℝ) (warn : Bool) (bs : List Body) :
    (update_bodies w h warn bs).1.map projMA = bs.map projMA := by
  rw [update_bodies_fst, List.map_map]
  congr 1
  funext bi
  exact updateBody_projMA w h bi

/-- The unclamped merge gives the absorber exactly the sum of the two
masses (and keeps it active iff it was active). -/
theorem mergeBodies_mass (L S : Body) (m1 m2 : ℝ)
    (hm1 : L.mass = num m1) (hm2 : S.mass = num m2)
    (hsum : m1 + m2 ≤ MAX_MASS) :
    (mergeBodies L S).1.mass = num (m1 + m2) ∧
    (mergeBodies L S).1.active = L.active ∧ (mergeBodies L S).2 = false := by
  simp [mergeBodies, hm1, hm2, not_lt.mpr hsum]

theorem activeMass_eq_of_projMA {bs cs : List Body}
    (h : bs.map projMA = cs.map projMA) : activeMass bs = activeMass cs := by
  induction bs generalizing cs with
  | nil =>
      cases cs with
      | nil => rfl
      | cons hd2 tl2 => simp at h
  | cons hd tl ih =>
      cases cs with
      | nil => simp at h
      | cons hd2 tl2 =>
          simp only [List.map_cons, List.cons.injEq] at h
          obtain ⟨h1, h2⟩ := h
          have hm : hd.mass = hd2.mass := congrArg Prod.fst h1
          have ha : hd.active = hd2.active := congrArg Prod.snd h1
          have htl : activeMass tl = activeMass tl2 := ih h2
          unfold activeMass at htl ⊢
          rw [List.filter_cons, List.filter_cons]
          by_cases hact : hd.active = true
          · rw [if_pos (by simpa using hact), if_pos (by simp [← ha, hact])]
            simp only [List.map_cons, List.sum_cons]
            rw [hm, htl]
          · rw [if_neg (by simpa using hact), if_neg (by simp [← ha]; simpa using hact)]
            exact htl

/-- Claim C2 (amended): the force and integration phases change no body's
mass or active flag, so the total active mass changes only in the
collision phase; an unclamped merge gives the absorber exactly the sum of
both masses (conserving the total when the absorber is active).  The
total can however decrease across a tick when a merge clamps the mass to
`MAX_MASS` (see the counterexample), so it is not non-decreasing. -/
theorem C2_mass_conservation :
    (∀ bs : List Body, activeMass (calculate_forces bs) = activeMass bs) ∧
    (∀ (w h : ℝ) (warn : Bool) (bs : List Body),
      activeMass (update_bodies w h warn bs).1 = activeMass bs) ∧
    (∀ (L S : Body) (m1 m2 : ℝ), L.mass = num m1 → S.mass = num m2 →
      m1 + m2 ≤ MAX_MASS →
      (mergeBodies L S).1.mass = num (m1 + m2) ∧
      (mergeBodies L S).1.active = L.active ∧ (mergeBodies L S).2 = false) := by
  refine ⟨?_, ?_, ?_⟩
  · intro bs
    exact activeMass_eq_of_projMA (calculate_forces_map_projMA bs)
  · intro w h warn bs
    exact activeMass_eq_of_projMA (update_bodies_map_projMA w h warn bs)
  · intro L S m1 m2 hm1 hm2 hsum
    exact mergeBodies_mass L S m1 m2 hm1 hm2 hsum

/-- Witness for C2's amended statement at concrete inputs. -/
theorem C2_mass_conservation_witness :
    activeMass (calculate_forces
      [⟨num 0, num 0, num 0, num 0, num 0, num 0, num 100, num 5.5, true, 0, 0, 0⟩]) =
      activeMass
      [⟨num 0, num 0, num 0, num 0, num 0, num 0, num 100, num 5.5, true, 0, 0, 0⟩] ∧
    (mergeBodies ⟨num 0, num 0, num 0, num 0, num 0, num 0, num 300, num 6.5, true, 0, 0, 0⟩
        ⟨num 0, num 0, num 0, num 0, num 0, num 0, num 100, num 5.5, true, 0, 0, 0⟩).1.mass =
      num (300 + 100) :=
  ⟨C2_mass_conservation.1 _,
   (C2_mass_conservation.2.2 _ _ 300 100 rfl rfl (by norm_num [MAX_MASS])).1⟩

/-- Counterexample for claim C2: a tick in which two active bodies of
masses 30000 and 25000 merge clamps the combined mass to `MAX_MASS`:
the total active mass drops from 55000 to 50000, so it is not
non-decreasing. -/
theorem C2_cex :
    tick 1200 800
      ⟨[⟨num 100, num 100, num 0, num 0, num 0, num 0, num 30000, num 100, true, 0, 0, 0⟩,
        ⟨num 100, num 100, num 0, num 0, num 0, num 0, num 25000, num 100, true, 0, 0, 0⟩],
       false, false⟩ =
    ⟨⟨[⟨num 100, num 100, num 0, num 0, num 0, num 0, num 50000, num 100, true, 0, 0, 0⟩,
       ⟨num 100, num 100, num 0, num 0, num 0, num 0, num 25000, num 100, false, 0, 0, 0⟩],
      true, false⟩, true, false, 0⟩ ∧
    activeMass
      [⟨num 100, num 100, num 0, num 0, num 0, num 0, num 50000, num 100, true, 0, 0, 0⟩,
       ⟨num 100, num 100, num 0, num 0, num 0, num 0, num 25000, num 100, false, 0, 0, 0⟩] <
    activeMass
      [⟨num 100, num 100, num 0, num 0, num 0, num 0, num 30000, num 100, true, 0, 0, 0⟩,
       ⟨num 100, num 100, num 0, num 0, num 0, num 0, num 25000, num 100, true, 0, 0, 0⟩] := by
  constructor
  · have hr : List.range 2 = [0, 1] := by decide
    have hr1 : List.range' 1 1 = [1] := by decide
    have hr2 : List.range' 2 0 = [] := by decide
    norm_num [tick, check_stability, badValues, calculate_forces, resetAccels, forceRow,
      forceStep, update_bodies, updateBody, clampFires, wrapCoord, handle_collisions,
      collideRow, collideStep, mergeBodies, D.toByte, Gconst, SOFTENING, TIME_STEP,
      BODY_RADIUS, MAX_VELOCITY, MAX_MASS, MAX_RADIUS, hr, hr1, hr2]
  · norm_num [activeMass, List.filter, D.val]

/-- Claim C1, failing input: three coincident active bodies of masses
100, 200, 50.  In the pair (0,1), body 1 absorbs body 0, deactivating it.
The source re-checks only `bodies[j].active` inside the inner loop, never
`bodies[i].active`, so the already-absorbed body 0 is still compared in
pair (0,2) and — being the heavier — "absorbs" body 2 while inactive:
body 0 ends inactive with mass 150 and body 2 is deactivated.  This
contradicts the claim that a body absorbed earlier in the pass is skipped
for every subsequent pair. -/
theorem C1_eval :
    handle_collisions
      [⟨num 0, num 0, num 0, num 0, num 0, num 0, num 100, num 5.5, true, 0, 0, 0⟩,
       ⟨num 0, num 0, num 0, num 0, num 0, num 0, num 200, num 6, true, 0, 0, 0⟩,
       ⟨num 0, num 0, num 0, num 0, num 0, num 0, num 50, num 5.25, true, 0, 0, 0⟩] false =
    ([⟨num 0, num 0, num 0, num 0, num 0, num 0, num 150, num 5.75, false, 0, 0, 0⟩,
      ⟨num 0, num 0, num 0, num 0, num 0, num 0, num 300, num 6.5, true, 0, 0, 0⟩,
      ⟨num 0, num 0, num 0, num 0, num 0, num 0, num 50, num 5.25, false, 0, 0, 0⟩], false) := by
  have hr : List.range 3 = [0, 1, 2] := by decide
  have hr1 : List.range' 1 2 = [1, 2] := by decide
  have hr2 : List.range' 2 1 = [2] := by decide
  have hr3 : List.range' 3 0 = [] := by decide
  norm_num [handle_collisions, collideRow, collideStep, mergeBodies, D.toByte,
    MAX_MASS, MAX_RADIUS, BODY_RADIUS, hr, hr1, hr2, hr3]

/-! ### Advisory accounting (claim C8) -/

theorem update_bodies_adv (w h : ℝ) (warn : Bool) (bs : List Body) :
    (warn = true →
      (update_bodies w h warn bs).2.2 = 0 ∧ (update_bodies w h warn bs).2.1 = true) ∧
    (update_bodies w h warn bs).2.2 ≤ 1 ∧
    ((update_bodies w h warn bs).2.2 ≠ 0 → (update_bodies w h warn bs).2.1 = true) := by
  induction bs generalizing warn with
  | nil => simp [update_bodies]
  | cons hd tl ih =>
      by_cases hact : hd.active = true
      · by_cases hcl : clampFires hd = true
        · cases warn with
          | true =>
              have h1 := (ih true).1 rfl
              simp [update_bodies, hact, hcl, h1.1, h1.2]
          | false =>
              have h1 := (ih true).1 rfl
              simp [update_bodies, hact, hcl, h1.1, h1.2]
        · simp only [Bool.not_eq_true] at hcl
          cases warn with
          | true =>
              have h1 := (ih true).1 rfl
              simp [update_bodies, hact, hcl, h1.1, h1.2]
          | false =>
              have h2 := (ih false).2
              simp only [update_bodies, hact, hcl, if_true]
              simp [h2.1]
              exact h2.2
      · simp only [Bool.not_eq_true] at hact
        cases warn with
        | true =>
            have h1 := (ih true).1 rfl
            simp [update_bodies, hact, h1.1, h1.2]
        | false =>
            have h2 := (ih false).2
            simp only [update_bodies, hact]
            simp [h2.1]
            exact h2.2

theorem tick_adv (w h : ℝ) (s : SimState) :
    (tick w h s).advisories ≤ 1 ∧
    (s.warnShown = true →
      (tick w h s).advisories = 0 ∧ (tick w h s).state.warnShown = true) ∧
    ((tick w h s).advisories ≠ 0 → (tick w h s).state.warnShown = true) := by
  by_cases hp : s.paused = true
  · simp [tick, hp]
  · simp only [Bool.not_eq_true] at hp
    by_cases hcs : check_stability s.bodies = true
    · have ha := update_bodies_adv w h s.warnShown (calculate_forces s.bodies)
      refine ⟨?_, ?_, ?_⟩
      · simpa [tick, hp, hcs] using ha.2.1
      · intro hw
        exact ⟨by simpa [tick, hp, hcs] using (ha.1 hw).1,
               by simpa [tick, hp, hcs] using (ha.1 hw).2⟩
      · intro hnz
        have : (update_bodies w h s.warnShown (calculate_forces s.bodies)).2.2 ≠ 0 := by
          simpa [tick, hp, hcs] using hnz
        simpa [tick, hp, hcs] using ha.2.2 this
    · simp only [Bool.not_eq_true] at hcs
      simp [tick, hp, hcs]

theorem runOp_adv (w h : ℕ) (s : SimState) (op : LoopOp)
    (hnr : ∀ draws, op ≠ LoopOp.opReset draws) :
    (runOp w h s op).2 ≤ 1 ∧
    (s.warnShown = true →
      (runOp w h s op).2 = 0 ∧ (runOp w h s op).1.warnShown = true) ∧
    ((runOp w h s op).2 ≠ 0 → (runOp w h s op).1.warnShown = true) := by
  cases op with
  | opTick =>
      have h := tick_adv w h s
      exact ⟨h.1, h.2.1, h.2.2⟩
  | opReset draws => exact absurd rfl (hnr draws)
  | opLaunch sx sy ex ey cr cg cb => simp [runOp]

/-- Claim C8 (amended): across any sequence of main-loop operations that
contains no reset, at most one velocity-clamp advisory is printed: the
first advisory sets `warning_shown` and every later clamp is silent.
(A reset clears `warning_shown`, so a later segment can print again —
see the counterexample.) -/
theorem C8_advisory (w h : ℕ) (s : SimState) (ops : List LoopOp)
    (hnr : ∀ op ∈ ops, ∀ draws, op ≠ LoopOp.opReset draws) :
    (runOps w h s ops).2 ≤ 1 ∧
    (s.warnShown = true → (runOps w h s ops).2 = 0) := by
  induction ops generalizing s with
  | nil => simp [runOps]
  | cons op rest ih =>
      have hop := runOp_adv w h s op (hnr op (List.mem_cons_self op rest))
      have hrest : ∀ op' ∈ rest, ∀ draws, op' ≠ LoopOp.opReset draws :=
        fun op' hmem => hnr op' (List.mem_cons_of_mem op hmem)
      constructor
      · by_cases hw : s.warnShown = true
        · have h0 := hop.2.1 hw
          have hr0 := (ih (runOp w h s op).1 hrest).2 h0.2
          simp [runOps, h0.1, hr0]
        · rcases Nat.eq_zero_or_pos (runOp w h s op).2 with hz | hpos
          · have := (ih (runOp w h s op).1 hrest).1
            simp [runOps, hz]
            exact this
          · have hwf := hop.2.2 (Nat.pos_iff_ne_zero.mp hpos)
            have hr0 := (ih (runOp w h s op).1 hrest).2 hwf
            have h1 := hop.1
            simp [runOps, hr0]
            omega
      · intro hw
        have h0 := hop.2.1 hw
        have hr0 := (ih (runOp w h s op).1 hrest).2 h0.2
        simp [runOps, h0.1, hr0]

/-- Witness for C8's amended statement: a single reset-free tick from an
empty store. -/
theorem C8_advisory_witness :
    (runOps 1200 800 ⟨[], false, false⟩ [LoopOp.opTick]).2 ≤ 1 ∧
    ((⟨[], false, false⟩ : SimState).warnShown = true →
      (runOps 1200 800 ⟨[], false, false⟩ [LoopOp.opTick]).2 = 0) :=
  C8_advisory 1200 800 ⟨[], false, false⟩ [LoopOp.opTick]
    (by intro op hop draws
        rcases List.mem_singleton.mp hop with heq
        subst heq
        exact fun hcontra => LoopOp.noConfusion hcontra)

/-! ### Zero-force evaluation helpers (used by the C8 trace) -/

/-- Every body sits at the origin with zeroed accelerations and a nonzero
finite mass; in that configuration the softened force has magnitude along
a zero displacement, so all accelerations stay zero. -/
def coincident (bs : List Body) : Prop :=
  ∀ bi ∈ bs, bi.x = num 0 ∧ bi.y = num 0 ∧ bi.ax = num 0 ∧ bi.ay = num 0 ∧
    ∃ m : ℝ, bi.mass = num m ∧ m ≠ 0

theorem foldl_fix {β : Type} (f : List Body → β → List Body) (l : List β)
    (bs : List Body) (hf : ∀ x, f bs x = bs) : l.foldl f bs = bs := by
  induction l with
  | nil => rfl
  | cons hd tl ih => rw [List.foldl_cons, hf, ih]

theorem forceStep_zero (i j : ℕ) (bs : List Body) (h : coincident bs) :
    forceStep i j bs = bs := by
  rcases hgi : bs[i]? with _ | bi
  · simp [forceStep, hgi]
  rcases hgj : bs[j]? with _ | bj
  · simp [forceStep, hgi, hgj]
  by_cases hact : bj.active = true
  case neg => simp [forceStep, hgi, hgj, hact]
  obtain ⟨hx1, hy1, hax1, hay1, m1, hm1, hm1n⟩ := h bi (List.getElem?_mem hgi)
  obtain ⟨hx2, hy2, hax2, hay2, m2, hm2, hm2n⟩ := h bj (List.getElem?_mem hgj)
  obtain ⟨bx1, by1, bvx1, bvy1, bax1, bay1, bm1, br1, bac1, c11, c12, c13⟩ := bi
  obtain ⟨bx2, by2, bvx2, bvy2, bax2, bay2, bm2, br2, bac2, c21, c22, c23⟩ := bj
  simp only at hx1 hy1 hax1 hay1 hm1 hx2 hy2 hax2 hay2 hm2 hact
  subst hx1 hy1 hax1 hay1 hm1 hx2 hy2 hax2 hay2 hm2 hact
  simp only [forceStep, hgi, hgj, if_true]
  norm_num [Gconst, SOFTENING, hm1n, hm2n]
  rw [set_of_get? _ _ _ hgi, set_of_get? _ _ _ hgj]

theorem forceRow_zero (bs : List Body) (h : coincident bs) (i : ℕ) :
    forceRow bs i = bs := by
  rcases hgi : bs[i]? with _ | bi
  · simp [forceRow, hgi]
  · by_cases hact : bi.active = true
    · simp only [forceRow, hgi]
      rw [if_pos hact]
      exact foldl_fix _ _ _ (fun j => forceStep_zero i j bs h)
    · simp [forceRow, hgi, hact]

theorem resetAccels_fix (bs : List Body)
    (h : ∀ bi ∈ bs, bi.ax = num 0 ∧ bi.ay = num 0) : resetAccels bs = bs := by
  induction bs with
  | nil => rfl
  | cons hd tl ih =>
      obtain ⟨h1, h2⟩ := h hd (List.mem_cons_self hd tl)
      have htl : resetAccels tl = tl :=
        ih (fun bi hm => h bi (List.mem_cons_of_mem hd hm))
      simp only [resetAccels] at htl ⊢
      rw [List.map_cons, htl]
      congr 1
      by_cases hact : hd.active = true
      · rw [if_pos hact]
        obtain ⟨bx, byy, bvx, bvy, bax, bay, bm, br, bac, c1, c2, c3⟩ := hd
        simp only at h1 h2
        subst h1 h2
        rfl
      · rw [if_neg hact]

theorem calculate_forces_zero (bs : List Body) (h : coincident bs) :
    calculate_forces bs = bs := by
  have hr : resetAccels bs = bs :=
    resetAccels_fix bs (fun bi hm => ⟨(h bi hm).2.2.1, (h bi hm).2.2.2.1⟩)
  rw [calculate_forces, hr]
  exact foldl_fix _ _ _ (fun i => forceRow_zero bs h i)

/-- Counterexample for claim C8: a process trace with two velocity-clamp
advisories.  From a state holding one fast body, a tick clamps it and
prints the advisory (count 1).  A Space-key reset then clears
`warning_shown`, and after a drag-launch of another fast body the next
tick clamps again and prints a second advisory: 2 advisories in the same
process, so the advisory is once per reset segment, not once per process
lifetime. -/
theorem C8_cex :
    (runOps 1200 800
      ⟨[⟨num 0, num 0, num 60, num 0, num 0, num 0, num 500, num 7, true, 0, 0, 0⟩],
       false, false⟩ [LoopOp.opTick]).2 = 1 ∧
    (runOps 1200 800
      ⟨[⟨num 0, num 0, num 60, num 0, num 0, num 0, num 500, num 7, true, 0, 0, 0⟩],
       false, false⟩
      [LoopOp.opTick,
       LoopOp.opReset [⟨0, 0, 0, 0, 0, 0, 0, 0⟩, ⟨0, 0, 0, 0, 0, 0, 0, 0⟩,
         ⟨0, 0, 0, 0, 0, 0, 0, 0⟩, ⟨0, 0, 0, 0, 0, 0, 0, 0⟩, ⟨0, 0, 0, 0, 0, 0, 0, 0⟩],
       LoopOp.opLaunch 0 0 600 0 0 0 0,
       LoopOp.opTick]).2 = 2 := by
  have h1 : runOp 1200 800
      ⟨[⟨num 0, num 0, num 60, num 0, num 0, num 0, num 500, num 7, true, 0, 0, 0⟩],
       false, false⟩ LoopOp.opTick =
      (⟨[⟨num 5, num 0, num 50, num 0, num 0, num 0, num 500, num 7, true, 0, 0, 0⟩],
        false, true⟩, 1) := by
    have hr : List.range 1 = [0] := by decide
    have hr1 : List.range' 1 0 = [] := by decide
    norm_num [runOp, tick, check_stability, badValues, calculate_forces, resetAccels,
      forceRow, forceStep, update_bodies, updateBody, clampFires, wrapCoord,
      handle_collisions, collideRow, collideStep, mergeBodies, D.toByte, Gconst,
      SOFTENING, TIME_STEP, BODY_RADIUS, MAX_VELOCITY, MAX_MASS, MAX_RADIUS, hr, hr1]
  have h2 : runOp 1200 800
      ⟨[⟨num 5, num 0, num 50, num 0, num 0, num 0, num 500, num 7, true, 0, 0, 0⟩],
       false, true⟩
      (LoopOp.opReset [⟨0, 0, 0, 0, 0, 0, 0, 0⟩, ⟨0, 0, 0, 0, 0, 0, 0, 0⟩,
        ⟨0, 0, 0, 0, 0, 0, 0, 0⟩, ⟨0, 0, 0, 0, 0, 0, 0, 0⟩, ⟨0, 0, 0, 0, 0, 0, 0, 0⟩]) =
      (⟨[⟨num 0, num 0, num (-1), num (-1), num 0, num 0, num 100, num 5.5, true, 0, 0, 0⟩,
         ⟨num 0, num 0, num (-1), num (-1), num 0, num 0, num 100, num 5.5, true, 0, 0, 0⟩,
         ⟨num 0, num 0, num (-1), num (-1), num 0, num 0, num 100, num 5.5, true, 0, 0, 0⟩,
         ⟨num 0, num 0, num (-1), num (-1), num 0, num 0, num 100, num 5.5, true, 0, 0, 0⟩,
         ⟨num 0, num 0, num (-1), num (-1), num 0, num 0, num 100, num 5.5, true, 0, 0, 0⟩],
        false, false⟩, 0) := by
    norm_num [runOp, init_bodies, drawBody, BODY_RADIUS, List.take]
  have h3 : runOp 1200 800
      ⟨[⟨num 0, num 0, num (-1), num (-1), num 0, num 0, num 100, num 5.5, true, 0, 0, 0⟩,
        ⟨num 0, num 0, num (-1), num (-1), num 0, num 0, num 100, num 5.5, true, 0, 0, 0⟩,
        ⟨num 0, num 0, num (-1), num (-1), num 0, num 0, num 100, num 5.5, true, 0, 0, 0⟩,
        ⟨num 0, num 0, num (-1), num (-1), num 0, num 0, num 100, num 5.5, true, 0, 0, 0⟩,
        ⟨num 0, num 0, num (-1), num (-1), num 0, num 0, num 100, num 5.5, true, 0, 0, 0⟩],
       false, false⟩ (LoopOp.opLaunch 0 0 600 0 0 0 0) =
      (⟨[⟨num 0, num 0, num (-1), num (-1), num 0, num 0, num 100, num 5.5, true, 0, 0, 0⟩,
         ⟨num 0, num 0, num (-1), num (-1), num 0, num 0, num 100, num 5.5, true, 0, 0, 0⟩,
         ⟨num 0, num 0, num (-1), num (-1), num 0, num 0, num 100, num 5.5, true, 0, 0, 0⟩,
         ⟨num 0, num 0, num (-1), num (-1), num 0, num 0, num 100, num 5.5, true, 0, 0, 0⟩,
         ⟨num 0, num 0, num (-1), num (-1), num 0, num 0, num 100, num 5.5, true, 0, 0, 0⟩,
         ⟨num 0, num 0, num (-60), num 0, num 0, num 0, num 500, num 7, true, 0, 0, 0⟩],
        false, false⟩, 0) := by
    norm_num [runOp, add_body_with_velocity, MAX_BODIES, BODY_RADIUS]
  have hA : calculate_forces
      [⟨num 0, num 0, num (-1), num (-1), num 0, num 0, num 100, num 5.5, true, 0, 0, 0⟩,
       ⟨num 0, num 0, num (-1), num (-1), num 0, num 0, num 100, num 5.5, true, 0, 0, 0⟩,
       ⟨num 0, num 0, num (-1), num (-1), num 0, num 0, num 100, num 5.5, true, 0, 0, 0⟩,
       ⟨num 0, num 0, num (-1), num (-1), num 0, num 0, num 100, num 5.5, true, 0, 0, 0⟩,
       ⟨num 0, num 0, num (-1), num (-1), num 0, num 0, num 100, num 5.5, true, 0, 0, 0⟩,
       ⟨num 0, num 0, num (-60), num 0, num 0, num 0, num 500, num 7, true, 0, 0, 0⟩] =
      [⟨num 0, num 0, num (-1), num (-1), num 0, num 0, num 100, num 5.5, true, 0, 0, 0⟩,
       ⟨num 0, num 0, num (-1), num (-1), num 0, num 0, num 100, num 5.5, true, 0, 0, 0⟩,
       ⟨num 0, num 0, num (-1), num (-1), num 0, num 0, num 100, num 5.5, true, 0, 0, 0⟩,
       ⟨num 0, num 0, num (-1), num (-1), num 0, num 0, num 100, num 5.5, true, 0, 0, 0⟩,
       ⟨num 0, num 0, num (-1), num (-1), num 0, num 0, num 100, num 5.5, true, 0, 0, 0⟩,
       ⟨num 0, num 0, num (-60), num 0, num 0, num 0, num 500, num 7, true, 0, 0, 0⟩] := by
    apply calculate_forces_zero
    intro bi hm
    fin_cases hm
    · exact ⟨rfl, rfl, rfl, rfl, 100, rfl, by norm_num⟩
    · exact ⟨rfl, rfl, rfl, rfl, 100, rfl, by norm_num⟩
    · exact ⟨rfl, rfl, rfl, rfl, 100, rfl, by norm_num⟩
    · exact ⟨rfl, rfl, rfl, rfl, 100, rfl, by norm_num⟩
    · exact ⟨rfl, rfl, rfl, rfl, 100, rfl, by norm_num⟩
    · exact ⟨rfl, rfl, rfl, rfl, 500, rfl, by norm_num⟩
  have hB : update_bodies 1200 800 false
      [⟨num 0, num 0, num (-1), num (-1), num 0, num 0, num 100, num 5.5, true, 0, 0, 0⟩,
       ⟨num 0, num 0, num (-1), num (-1), num 0, num 0, num 100, num 5.5, true, 0, 0, 0⟩,
       ⟨num 0, num 0, num (-1), num (-1), num 0, num 0, num 100, num 5.5, true, 0, 0, 0⟩,
       ⟨num 0, num 0, num (-1), num (-1), num 0, num 0, num 100, num 5.5, true, 0, 0, 0⟩,
       ⟨num 0, num 0, num (-1), num (-1), num 0, num 0, num 100, num 5.5, true, 0, 0, 0⟩,
       ⟨num 0, num 0, num (-60), num 0, num 0, num 0, num 500, num 7, true, 0, 0, 0⟩] =
      ([⟨num 1200, num 800, num (-1), num (-1), num 0, num 0, num 100, num 5.5, true, 0, 0, 0⟩,
        ⟨num 1200, num 800, num (-1), num (-1), num 0, num 0, num 100, num 5.5, true, 0, 0, 0⟩,
        ⟨num 1200, num 800, num (-1), num (-1), num 0, num 0, num 100, num 5.5, true, 0, 0, 0⟩,
        ⟨num 1200, num 800, num (-1), num (-1), num 0, num 0, num 100, num 5.5, true, 0, 0, 0⟩,
        ⟨num 1200, num 800, num (-1), num (-1), num 0, num 0, num 100, num 5.5, true, 0, 0, 0⟩,
        ⟨num 1200, num 0, num (-50), num 0, num 0, num 0, num 500, num 7, true, 0, 0, 0⟩],
       true, 1) := by
    norm_num [update_bodies, updateBody, clampFires, wrapCoord, TIME_STEP, MAX_VELOCITY]
  have hC : handle_collisions
      [⟨num 1200, num 800, num (-1), num (-1), num 0, num 0, num 100, num 5.5, true, 0, 0, 0⟩,
       ⟨num 1200, num 800, num (-1), num (-1), num 0, num 0, num 100, num 5.5, true, 0, 0, 0⟩,
       ⟨num 1200, num 800, num (-1), num (-1), num 0, num 0, num 100, num 5.5, true, 0, 0, 0⟩,
       ⟨num 1200, num 800, num (-1), num (-1), num 0, num 0, num 100, num 5.5, true, 0, 0, 0⟩,
       ⟨num 1200, num 800, num (-1), num (-1), num 0, num 0, num 100, num 5.5, true, 0, 0, 0⟩,
       ⟨num 1200, num 0, num (-50), num 0, num 0, num 0, num 500, num 7, true, 0, 0, 0⟩] false =
      ([⟨num 1200, num 800, num (-1), num (-1), num 0, num 0, num 500, num 7.5, true, 0, 0, 0⟩,
        ⟨num 1200, num 800, num (-1), num (-1), num 0, num 0, num 100, num 5.5, false, 0, 0, 0⟩,
        ⟨num 1200, num 800, num (-1), num (-1), num 0, num 0, num 100, num 5.5, false, 0, 0, 0⟩,
        ⟨num 1200, num 800, num (-1), num (-1), num 0, num 0, num 100, num 5.5, false, 0, 0, 0⟩,
        ⟨num 1200, num 800, num (-1), num (-1), num 0, num 0, num 100, num 5.5, false, 0, 0, 0⟩,
        ⟨num 1200, num 0, num (-50), num 0, num 0, num 0, num 500, num 7, true, 0, 0, 0⟩],
       false) := by
    have hr : List.range 6 = [0, 1, 2, 3, 4, 5] := by decide
    have hq1 : List.range' 1 5 = [1, 2, 3, 4, 5] := by decide
    have hq2 : List.range' 2 4 = [2, 3, 4, 5] := by decide
    have hq3 : List.range' 3 3 = [3, 4, 5] := by decide
    have hq4 : List.range' 4 2 = [4, 5] := by decide
    have hq5 : List.range' 5 1 = [5] := by decide
    have hq6 : List.range' 6 0 = [] := by decide
    norm_num [handle_collisions, collideRow, collideStep, mergeBodies, D.toByte,
      MAX_MASS, MAX_RADIUS, BODY_RADIUS, hr, hq1, hq2, hq3, hq4, hq5, hq6]
  have h4 : runOp 1200 800
      ⟨[⟨num 0, num 0, num (-1), num (-1), num 0, num 0, num 100, num 5.5, true, 0, 0, 0⟩,
        ⟨num 0, num 0, num (-1), num (-1), num 0, num 0, num 100, num 5.5, true, 0, 0, 0⟩,
        ⟨num 0, num 0, num (-1), num (-1), num 0, num 0, num 100, num 5.5, true, 0, 0, 0⟩,
        ⟨num 0, num 0, num (-1), num (-1), num 0, num 0, num 100, num 5.5, true, 0, 0, 0⟩,
        ⟨num 0, num 0, num (-1), num (-1), num 0, num 0, num 100, num 5.5, true, 0, 0, 0⟩,
        ⟨num 0, num 0, num (-60), num 0, num 0, num 0, num 500, num 7, true, 0, 0, 0⟩],
       false, false⟩ LoopOp.opTick =
      (⟨[⟨num 1200, num 800, num (-1), num (-1), num 0, num 0, num 500, num 7.5, true, 0, 0, 0⟩,
         ⟨num 1200, num 800, num (-1), num (-1), num 0, num 0, num 100, num 5.5, false, 0, 0, 0⟩,
         ⟨num 1200, num 800, num (-1), num (-1), num 0, num 0, num 100, num 5.5, false, 0, 0, 0⟩,
         ⟨num 1200, num 800, num (-1), num (-1), num 0, num 0, num 100, num 5.5, false, 0, 0, 0⟩,
         ⟨num 1200, num 800, num (-1), num (-1), num 0, num 0, num 100, num 5.5, false, 0, 0, 0⟩,
         ⟨num 1200, num 0, num (-50), num 0, num 0, num 0, num 500, num 7, true, 0, 0, 0⟩],
        false, true⟩, 1) := by
    have hD : check_stability
        [⟨num 0, num 0, num (-1), num (-1), num 0, num 0, num 100, num 5.5, true, 0, 0, 0⟩,
         ⟨num 0, num 0, num (-1), num (-1), num 0, num 0, num 100, num 5.5, true, 0, 0, 0⟩,
         ⟨num 0, num 0, num (-1), num (-1), num 0, num 0, num 100, num 5.5, true, 0, 0, 0⟩,
         ⟨num 0, num 0, num (-1), num (-1), num 0, num 0, num 100, num 5.5, true, 0, 0, 0⟩,
         ⟨num 0, num 0, num (-1), num (-1), num 0, num 0, num 100, num 5.5, true, 0, 0, 0⟩,
         ⟨num 0, num 0, num (-60), num 0, num 0, num 0, num 500, num 7, true, 0, 0, 0⟩] = true := by
      simp [check_stability, badValues]
    simp [runOp, tick, hD, hA, hB, hC]
  refine ⟨?_, ?_⟩
  · simp [runOps, h1]
  · simp [runOps, h1, h2, h3, h4]

end

end GravitySim
